import Mathlib

/-!
Verification development for the library/bookshelf coursework repository.

Text values are modelled as lists of characters.  Python string helpers
used by the forms (`str.strip`, `django.utils.html.escape`, `str.lower`,
the `in` substring test) are embedded as executable Lean functions, and
the form `clean_*` methods, the REST serializer validators and the
role/permission checks are translated from the corresponding Python
sources.
-/

namespace Bookshelf

/-- Text values (Python strings) are modelled as lists of characters. -/
abbrev Str := List Char

/-- Whitespace characters stripped by Python's `str.strip()` and matched
by the regex class `\s` (ASCII fragment). -/
def isPySpace (c : Char) : Bool :=
  c == ' ' || c == '\t' || c == '\n' || c == '\r' || c == '\x0b' || c == '\x0c'

/-- Python `str.strip()`: remove leading and trailing whitespace. -/
def pyStrip (s : Str) : Str :=
  List.rdropWhile isPySpace (s.dropWhile isPySpace)

/-- The five characters replaced by `django.utils.html.escape`. -/
def isHtmlSpecial (c : Char) : Bool :=
  c == '&' || c == '<' || c == '>' || c == '"' || c == '\''

/-- Per-character translation table of `django.utils.html.escape`. -/
def escapeChar (c : Char) : Str :=
  if c == '&' then "&amp;".toList
  else if c == '<' then "&lt;".toList
  else if c == '>' then "&gt;".toList
  else if c == '"' then "&quot;".toList
  else if c == '\'' then "&#x27;".toList
  else [c]

/-- Model of `django.utils.html.escape`: a single pass over the string
replacing each special character by its entity. -/
def escapeHtml (s : Str) : Str :=
  s.flatMap escapeChar

/-- Python `str.lower()` (ASCII fragment). -/
def lowerStr (s : Str) : Str :=
  s.map Char.toLower

/-- The sanitization step shared by the form cleaners, the composition
`escape(value.strip())` appearing in each `clean_*` method: trim
whitespace, then HTML-escape. -/
def sanitizeInput (s : Str) : Str :=
  escapeHtml (pyStrip s)

/-- Decidable prefix test on character lists (Python startswith). -/
def isPreOf : Str → Str → Bool
  | [], _ => true
  | _ :: _, [] => false
  | a :: as, b :: bs => a == b && isPreOf as bs

/-- Decidable substring containment, modelling Python's `needle in hay`. -/
def containsSub (needle : Str) : Str → Bool
  | [] => isPreOf needle []
  | b :: bs => isPreOf needle (b :: bs) || containsSub needle bs

/-- Substring match for a regex of the form `a.*b` (Python `re.search`
without DOTALL: the gap may not contain a newline). -/
def seqSub (a b : Str) (s : Str) : Bool :=
  s.tails.any fun t =>
    isPreOf a t && containsSub b ((t.drop a.length).takeWhile (fun c => c != '\n'))

/-! Basic lemmas about the sanitization primitives. -/

theorem isPreOf_iff (n : Str) : ∀ h : Str, isPreOf n h = true ↔ n <+: h := by
  induction n with
  | nil =>
    intro h
    simp [isPreOf, List.nil_prefix]
  | cons a as ih =>
    intro h
    cases h with
    | nil =>
      simp only [isPreOf, Bool.false_eq_true, false_iff]
      intro hpre
      obtain ⟨t, ht⟩ := hpre
      simp at ht
    | cons b bs =>
      simp only [isPreOf, Bool.and_eq_true, beq_iff_eq, ih bs]
      constructor
      · rintro ⟨rfl, t, rfl⟩
        exact ⟨t, rfl⟩
      · rintro ⟨t, ht⟩
        injection ht with h1 h2
        exact ⟨h1.symm ▸ rfl, t, h2⟩

theorem infixConsIff (q : Str) (c : Char) (l : Str) :
    q <:+: (c :: l) ↔ q <+: (c :: l) ∨ q <:+: l := by
  constructor
  · rintro ⟨s, t, hst⟩
    cases s with
    | nil =>
      left
      exact ⟨t, by simpa using hst⟩
    | cons a as =>
      right
      injection hst with h1 h2
      exact ⟨as, t, h2⟩
  · rintro (⟨t, ht⟩ | ⟨s, t, hst⟩)
    · exact ⟨[], t, by simpa using ht⟩
    · exact ⟨c :: s, t, by simp [hst]⟩

theorem containsSub_iff (n : Str) : ∀ h : Str, containsSub n h = true ↔ n <:+: h := by
  intro h
  induction h with
  | nil =>
    simp only [containsSub, isPreOf_iff, List.prefix_nil]
    constructor
    · rintro rfl; exact List.infix_refl []
    · intro hinf; exact List.eq_nil_of_infix_nil hinf
  | cons b bs ih =>
    simp only [containsSub, Bool.or_eq_true, isPreOf_iff, ih, infixConsIff]

theorem revInfix {α : Type} {l₁ l₂ : List α} (h : l₁ <:+: l₂) :
    l₁.reverse <:+: l₂.reverse := by
  obtain ⟨s, t, rfl⟩ := h
  exact ⟨t.reverse, s.reverse, by simp⟩

/-- A nonempty pattern with a non-whitespace first character survives
`dropWhile` of whitespace. -/
theorem infixDropWhile (p : Char → Bool) {q : Str} (hq : q ≠ [])
    (hh : ∀ a, q.head? = some a → p a = false) :
    ∀ {l : Str}, q <:+: l → q <:+: l.dropWhile p := by
  intro l
  induction l with
  | nil => intro h; simpa using h
  | cons c cs ih =>
    intro h
    rw [List.dropWhile_cons]
    by_cases hc : p c = true
    · rw [if_pos hc]
      obtain ⟨s, t, hst⟩ := h
      cases s with
      | nil =>
        cases q with
        | nil => exact absurd rfl hq
        | cons a as =>
          injection hst with h1 h2
          rw [← h1] at hc
          rw [hh a rfl] at hc
          exact absurd hc (by simp)
      | cons a as =>
        injection hst with h1 h2
        exact ih ⟨as, t, h2⟩
    · rw [if_neg hc]
      exact h

/-- A nonempty pattern with a non-whitespace last character survives
`rdropWhile` of whitespace. -/
theorem infixRdropWhile (p : Char → Bool) {q : Str} (hq : q ≠ [])
    (hh : ∀ a, q.getLast? = some a → p a = false) {l : Str} (h : q <:+: l) :
    q <:+: List.rdropWhile p l := by
  have h1 : q.reverse <:+: l.reverse := revInfix h
  have hq' : q.reverse ≠ [] := by simpa using hq
  have hh' : ∀ a, q.reverse.head? = some a → p a = false := by
    intro a ha
    rw [List.head?_reverse] at ha
    exact hh a ha
  have h2 : q.reverse <:+: l.reverse.dropWhile p := infixDropWhile p hq' hh' h1
  have h3 := revInfix h2
  simpa [List.rdropWhile] using h3

/-- A nonempty pattern with non-whitespace first and last characters
survives Python `strip`. -/
theorem infixPyStrip {q l : Str} (hq : q ≠ [])
    (hhead : ∀ a, q.head? = some a → isPySpace a = false)
    (hlast : ∀ a, q.getLast? = some a → isPySpace a = false)
    (h : q <:+: l) : q <:+: pyStrip l :=
  infixRdropWhile isPySpace hq hlast (infixDropWhile isPySpace hq hhead h)

theorem escapeAppend (a b : Str) : escapeHtml (a ++ b) = escapeHtml a ++ escapeHtml b := by
  simp [escapeHtml]

theorem escapeNoSpecial {s : Str} (h : s.all (fun c => !isHtmlSpecial c) = true) :
    escapeHtml s = s := by
  induction s with
  | nil => rfl
  | cons c cs ih =>
    simp only [List.all_cons, Bool.and_eq_true, Bool.not_eq_true'] at h
    have hc : escapeChar c = [c] := by
      unfold escapeChar
      have := h.1
      simp only [isHtmlSpecial, Bool.or_eq_false_iff] at this
      rw [if_neg (by simp [this.1.1.1.1]), if_neg (by simp [this.1.1.1.2]),
        if_neg (by simp [this.1.1.2]), if_neg (by simp [this.1.2]),
        if_neg (by simp [this.2])]
    simp only [escapeHtml, List.flatMap_cons, hc]
    simpa [escapeHtml] using congrArg (c :: ·) (ih (by simp [List.all_eq_true] at h ⊢; exact h.2))

/-- A pattern free of HTML-special characters survives escaping. -/
theorem infixEscape {q l : Str} (hq : q.all (fun c => !isHtmlSpecial c) = true)
    (h : q <:+: l) : q <:+: escapeHtml l := by
  obtain ⟨s, t, rfl⟩ := h
  exact ⟨escapeHtml s, escapeHtml t, by
    rw [escapeAppend, escapeAppend, escapeNoSpecial hq]⟩

theorem infixMap {α β : Type} (f : α → β) {q l : List α} (h : q <:+: l) :
    q.map f <:+: l.map f := by
  obtain ⟨s, t, rfl⟩ := h
  exact ⟨s.map f, t.map f, by simp⟩

theorem mapPreInv {α β : Type} {f : α → β} :
    ∀ {l : List α} {p t : List β}, p ++ t = l.map f →
      ∃ q r, q ++ r = l ∧ q.map f = p := by
  intro l p
  induction p generalizing l with
  | nil => intro t _; exact ⟨[], l, rfl, rfl⟩
  | cons b bs ih =>
    intro t ht
    cases l with
    | nil => simp at ht
    | cons c cs =>
      simp only [List.map_cons, List.cons_append] at ht
      injection ht with h1 h2
      obtain ⟨q, r, hqr, hq⟩ := ih h2
      exact ⟨c :: q, r, by simp [hqr], by simp [hq, h1]⟩

theorem mapSufInv {α β : Type} {f : α → β} :
    ∀ {s : List β} {l : List α} {p : List β}, s ++ p = l.map f →
      ∃ q r, r ++ q = l ∧ q.map f = p := by
  intro s
  induction s with
  | nil => intro l p hp; exact ⟨l, [], by simp, hp.symm ▸ by simp⟩
  | cons b bs ih =>
    intro l p ht
    cases l with
    | nil => simp at ht
    | cons c cs =>
      simp only [List.map_cons, List.cons_append] at ht
      injection ht with h1 h2
      obtain ⟨q, r, hqr, hq⟩ := ih h2
      exact ⟨q, c :: r, by simp [hqr], hq⟩

/-- An occurrence of a pattern in a mapped list comes from an occurrence
of a preimage pattern in the original list. -/
theorem mapInfixInv {α β : Type} {f : α → β} {l : List α} {ind : List β}
    (h : ind <:+: l.map f) : ∃ q, q <:+: l ∧ q.map f = ind := by
  obtain ⟨s, t, hst⟩ := h
  rw [List.append_assoc] at hst
  obtain ⟨q1, r1, hqr1, hq1⟩ := mapSufInv hst
  obtain ⟨q2, r2, hqr2, hq2⟩ := mapPreInv hq1.symm
  exact ⟨q2, ⟨r1, r2, by rw [← hqr1, ← hqr2, List.append_assoc]⟩, hq2⟩

theorem wsToLower {c : Char} (h : isPySpace c = true) : c.toLower = c := by
  simp only [isPySpace, Bool.or_eq_true, beq_iff_eq] at h
  rcases h with ((((h | h) | h) | h) | h) | h <;> subst h <;> decide

theorem specialToLower {c : Char} (h : isHtmlSpecial c = true) : c.toLower = c := by
  simp only [isHtmlSpecial, Bool.or_eq_true, beq_iff_eq] at h
  rcases h with (((h | h) | h) | h) | h <;> subst h <;> decide

/-- Stripping twice strips once: helper for idempotence of the trim step. -/
theorem dropWhileRdropWhile (p : Char → Bool) (l : Str) :
    (List.rdropWhile p (l.dropWhile p)).dropWhile p = List.rdropWhile p (l.dropWhile p) := by
  have hpre := List.rdropWhile_prefix p (l.dropWhile p)
  obtain ⟨r, hr⟩ := hpre
  cases hd : List.rdropWhile p (l.dropWhile p) with
  | nil => rfl
  | cons a as =>
    rw [List.dropWhile_cons]
    have hne : l.dropWhile p ≠ [] := by
      intro h0
      rw [h0] at hd
      simp [List.rdropWhile] at hd
    have hhead := List.head_dropWhile_not p l hne
    have ha : a = (l.dropWhile p).head hne := by
      rw [hd] at hr
      have : l.dropWhile p = a :: (as ++ r) := by simpa using hr.symm
      simp [this]
    rw [if_neg (by rw [ha, hhead]; simp)]

/-- The trim step of the sanitizer is idempotent. -/
theorem pyStrip_idem (s : Str) : pyStrip (pyStrip s) = pyStrip s := by
  unfold pyStrip
  rw [dropWhileRdropWhile, List.rdropWhile_idempotent]

theorem pyStrip_all_space {s : Str} (h : ∀ c ∈ s, isPySpace c = true) :
    pyStrip s = [] := by
  unfold pyStrip
  rw [List.dropWhile_eq_nil_iff.mpr h]
  simp [List.rdropWhile]

/-! Validation messages from `bookshelf/forms.py` and `api/serializers.py`. -/

def nameCharsMsg : Str :=
  "Name can only contain letters, spaces, hyphens, and apostrophes.".toList

def nameLenMsg : Str := "Name must be at least 2 characters long.".toList

def messageLenMsg : Str := "Message must be at least 10 characters long.".toList

def messageSpamMsg : Str := "Message contains prohibited content.".toList

def queryCharsMsg : Str := "Search query contains invalid characters.".toList

def queryLongMsg : Str := "Search query is too long.".toList

def queryShortMsg : Str := "Search query must be at least 2 characters long.".toList

def titleShortMsg : Str := "Title must be at least 2 characters long.".toList

def titleLongMsg : Str := "Title is too long (maximum 200 characters).".toList

def commentLenMsg : Str := "Comment must be at least 5 characters long.".toList

def commentSpamMsg : Str := "Comments cannot contain URLs or promotional content.".toList

def subjectLenMsg : Str := "Subject must be at least 3 characters long.".toList

def phoneMsg : Str := "Please enter a valid phone number.".toList

def spamDetectedMsg : Str := "Spam detected.".toList

def contactMessageLenMsg : Str := "Message must be at least 20 characters long.".toList

def titleEmptyMsg : Str := "Book title cannot be empty or just whitespace.".toList

def titleMinMsg : Str := "Book title must be at least 2 characters long.".toList

def futureYearMsg : Str := "Publication year cannot be in the future.".toList

def tooOldMsg : Str :=
  "Publication year seems too old. Please provide a reasonable year.".toList

def uniqueMsg : Str :=
  "The fields title, author, publication_year must make a unique set.".toList

/-- Character class of the name regex in `ExampleForm.clean_name`:
letters, whitespace, hyphens, apostrophes and periods. -/
def nameCharOk (c : Char) : Bool :=
  c.isAlpha || isPySpace c || c == '-' || c == '\'' || c == '.'

/-- Full match of the regex in `ExampleForm.clean_name` (nonempty run of
allowed characters). -/
def nameRegexOk (n : Str) : Bool :=
  !n.isEmpty && n.all nameCharOk

/-- Spam regexes of `ExampleForm.clean_message`, searched
case-insensitively: URLs, web addresses and fixed spam phrases. -/
def exampleSpam (m : Str) : Bool :=
  let lm := lowerStr m
  containsSub "http://".toList lm || containsSub "https://".toList lm ||
    containsSub "www.".toList lm || containsSub "click here".toList lm ||
    containsSub "buy now".toList lm || containsSub "free money".toList lm

/-- Model of `ExampleForm.clean_name`: strip and escape, then the
character-class regex, then the minimum-length check. -/
def clean_name (name : Str) : Except Str Str :=
  if name.isEmpty then Except.ok name
  else if !nameRegexOk (sanitizeInput name) then Except.error nameCharsMsg
  else if (sanitizeInput name).length < 2 then Except.error nameLenMsg
  else Except.ok (sanitizeInput name)

/-- Model of `ExampleForm.clean_message`: strip and escape, then the
minimum-length check, then the spam-pattern scan. -/
def clean_message (m : Str) : Except Str Str :=
  if m.isEmpty then Except.ok m
  else if (sanitizeInput m).length < 10 then Except.error messageLenMsg
  else if exampleSpam (sanitizeInput m) then Except.error messageSpamMsg
  else Except.ok (sanitizeInput m)

/-- Validator for the name field in the order stated by the
specification (length window first, then character class, then spam
substrings); written from the spec's words for comparison against the
source order in `clean_name`. -/
def validate_name_spec_order (name : Str) : Except Str Str :=
  if (sanitizeInput name).length < 2 then Except.error nameLenMsg
  else if 100 < (sanitizeInput name).length then Except.error nameCharsMsg
  else if !nameRegexOk (sanitizeInput name) then Except.error nameCharsMsg
  else if exampleSpam (sanitizeInput name) then Except.error messageSpamMsg
  else Except.ok (sanitizeInput name)

/-- Character class of the query regex in `BookSearchForm.clean_query`:
alphanumerics, whitespace and basic punctuation. -/
def queryCharOk (c : Char) : Bool :=
  c.isAlphanum || isPySpace c || c == '-' || c == '.' || c == ',' ||
    c == '\'' || c == '"' || c == '(' || c == ')'

/-- Model of `BookSearchForm.clean_query`: strip and escape, then the
character-class regex, then the maximum and minimum length checks. -/
def clean_query (q : Str) : Except Str Str :=
  if q.isEmpty then Except.ok q
  else if !(!(sanitizeInput q).isEmpty && (sanitizeInput q).all queryCharOk) then
    Except.error queryCharsMsg
  else if 200 < (sanitizeInput q).length then Except.error queryLongMsg
  else if (sanitizeInput q).length < 2 then Except.error queryShortMsg
  else Except.ok (sanitizeInput q)

/-- Model of `SecureBookForm.clean_title`: strip and escape, then the
minimum and maximum length checks. -/
def clean_title (title : Str) : Except Str Str :=
  if title.isEmpty then Except.ok title
  else if (sanitizeInput title).length < 2 then Except.error titleShortMsg
  else if 200 < (sanitizeInput title).length then Except.error titleLongMsg
  else Except.ok (sanitizeInput title)

/-- Fixed field bounds of `SecureBookForm.publication_year`
(`min_value=1000`, `max_value=2025` in the source). -/
def publication_year_field_ok (y : Int) : Bool :=
  1000 ≤ y && y ≤ 2025

/-- Spam indicator substrings of `SecureCommentForm.clean_comment`. -/
def spamIndicators : List Str :=
  ["http://".toList, "https://".toList, "www.".toList,
    "click here".toList, "buy now".toList]

/-- Model of `SecureCommentForm.clean_comment`: strip and escape, then
the minimum-length check, then the case-insensitive spam-substring scan. -/
def clean_comment (comment : Str) : Except Str Str :=
  if comment.isEmpty then Except.ok comment
  else if (sanitizeInput comment).length < 5 then Except.error commentLenMsg
  else if spamIndicators.any
      (fun ind => containsSub ind (lowerStr (sanitizeInput comment))) then
    Except.error commentSpamMsg
  else Except.ok (sanitizeInput comment)

/-- Model of `SecureContactForm.clean_subject`. -/
def clean_subject (subject : Str) : Except Str Str :=
  if subject.isEmpty then Except.ok subject
  else if (sanitizeInput subject).length < 3 then Except.error subjectLenMsg
  else Except.ok (sanitizeInput subject)

/-- Model of `SecureContactForm.clean_phone`: drop separators, then
require 10 to 15 digits. -/
def phoneDigits (phone : Str) : Str :=
  phone.filter fun c =>
    !(isPySpace c || c == '-' || c == '(' || c == ')' || c == '+')

def clean_phone (phone : Str) : Except Str Str :=
  if phone.isEmpty then Except.ok phone
  else if !((phoneDigits phone).all Char.isDigit &&
      10 ≤ (phoneDigits phone).length && (phoneDigits phone).length ≤ 15) then
    Except.error phoneMsg
  else Except.ok (pyStrip phone)

/-- Model of `SecureContactForm.clean_website`, the honeypot validator:
any non-empty value is rejected as spam. -/
def clean_website (website : Str) : Except Str Str :=
  if website.isEmpty then Except.ok website
  else Except.error spamDetectedMsg

/-- Spam regexes of `SecureContactForm.clean_message`, searched
case-insensitively; the `.*` gaps may not span a newline. -/
def contactSpam (m : Str) : Bool :=
  let lm := lowerStr m
  containsSub "http://".toList lm || containsSub "https://".toList lm ||
    containsSub "www.".toList lm || seqSub "click".toList "here".toList lm ||
    seqSub "buy".toList "now".toList lm ||
    seqSub "free".toList "money".toList lm ||
    seqSub "guaranteed".toList "income".toList lm

/-- Model of `SecureContactForm.clean_message`. -/
def clean_contact_message (m : Str) : Except Str Str :=
  if m.isEmpty then Except.ok m
  else if (sanitizeInput m).length < 20 then Except.error contactMessageLenMsg
  else if contactSpam (sanitizeInput m) then Except.error messageSpamMsg
  else Except.ok (sanitizeInput m)

/-- A submission of `SecureContactForm` (cleaned field values handed to
the per-field validators). -/
structure ContactSubmission where
  subject : Str
  name : Str
  email : Str
  phone : Str
  message : Str
  website : Str

/-- Django form validity for `SecureContactForm`: the form is valid when
framework field validation (`fieldOk`, quantified over, since it is
external framework behaviour) and every `clean_*` method succeed. -/
def contact_is_valid (fieldOk : Bool) (d : ContactSubmission) : Bool :=
  fieldOk && (clean_subject d.subject).isOk && (clean_phone d.phone).isOk &&
    (clean_website d.website).isOk && (clean_contact_message d.message).isOk

/-! REST serializer validators from `advanced-api-project/api/serializers.py`. -/

/-- Model of `BookSerializer.validate_publication_year`: reject future
years and years before 1000; `currentYear` stands for
`datetime.now().year`. -/
def validate_publication_year (currentYear y : Int) : Except Str Int :=
  if y > currentYear then Except.error futureYearMsg
  else if y < 1000 then Except.error tooOldMsg
  else Except.ok y

/-- Model of `BookSerializer.validate` (object-level): strip the title
locally, reject an empty or too-short result, and return the data
unchanged. -/
def book_serializer_validate (title : Str) : Except Str Str :=
  if (pyStrip title).isEmpty then Except.error titleEmptyMsg
  else if (pyStrip title).length < 2 then Except.error titleMinMsg
  else Except.ok title

/-- A persisted book row for the `api.Book` model: the fields of the
`unique_together` constraint. -/
structure BookRec where
  title : Str
  author : Nat
  publication_year : Int
deriving DecidableEq

/-- Modelled from the spec: creation of a Book through the gated create
operation.  The serializer validation comes from
`api/serializers.py`; the uniqueness rejection realizes the
`unique_together = ['title', 'author', 'publication_year']` constraint
declared in `api/models.py`, whose enforcement lives in the external
database engine. -/
def createBook (currentYear : Int) (store : List BookRec) (title : Str)
    (author : Nat) (year : Int) : Except Str (List BookRec) :=
  match validate_publication_year currentYear year with
  | Except.error e => Except.error e
  | Except.ok _ =>
    match book_serializer_validate title with
    | Except.error e => Except.error e
    | Except.ok _ =>
      let b : BookRec := ⟨title, author, year⟩
      if store.any (fun x => x == b) then Except.error uniqueMsg
      else Except.ok (store ++ [b])

/-! Role resolution and the permission gate.  The group/permission table
is translated from `bookshelf/management/commands/setup_groups.py`; the
role checks from `relationship_app/views.py`. -/

/-- Roles stored on the one-to-one user profile
(`relationship_app.UserProfile.role`). -/
inductive Role
  | Admin
  | Librarian
  | Member
deriving DecidableEq

/-- Actions on the Book resource guarded by the custom permissions. -/
inductive Action
  | view
  | create
  | edit
  | delete
deriving DecidableEq

/-- The three groups created by the `setup_groups` management command. -/
inductive AccessGroup
  | Editors
  | Viewers
  | Admins
deriving DecidableEq

/-- The named permissions created by the `setup_groups` management
command (four on Book, two on Library). -/
inductive Perm
  | can_view
  | can_create
  | can_edit
  | can_delete
  | can_add_book
  | can_remove_book
deriving DecidableEq

/-- Resource types carried by the permission content types. -/
inductive ResourceType
  | book
  | library
deriving DecidableEq

/-- Permissions assigned to each group in `setup_groups.py`. -/
def groupPerms : AccessGroup → List Perm
  | AccessGroup.Viewers => [Perm.can_view]
  | AccessGroup.Editors =>
      [Perm.can_view, Perm.can_create, Perm.can_edit,
        Perm.can_add_book, Perm.can_remove_book]
  | AccessGroup.Admins =>
      [Perm.can_view, Perm.can_create, Perm.can_edit, Perm.can_delete,
        Perm.can_add_book, Perm.can_remove_book]

/-- A principal: an (possibly authenticated) user together with the role
of its optional one-to-one profile. -/
structure Principal where
  authenticated : Bool
  profile : Option Role
deriving DecidableEq

/-- Failure mode of role resolution. -/
inductive ResolveError
  | NoProfile
deriving DecidableEq

/-- Model of the role lookup performed by `is_admin`/`is_librarian`/
`is_member` via `hasattr(user, "userprofile")`: a principal without a
profile resolves to `NoProfile` instead of crashing. -/
def resolve (p : Principal) : Except ResolveError Role :=
  match p.profile with
  | none => Except.error ResolveError.NoProfile
  | some r => Except.ok r

/-- Modelled from the spec: group membership of each role (Admins for
Admin, Editors for Librarian, Viewers for Member); the group assignment
itself lives in the external auth store. -/
def roleGroups : Role → List AccessGroup
  | Role.Admin => [AccessGroup.Admins]
  | Role.Librarian => [AccessGroup.Editors]
  | Role.Member => [AccessGroup.Viewers]

/-- The grant required for an action on a resource type, following the
content types in `setup_groups.py` (the four Book permissions). -/
def grantFor (a : Action) (rt : ResourceType) : Option Perm :=
  match rt with
  | ResourceType.book =>
    some (match a with
      | Action.view => Perm.can_view
      | Action.create => Perm.can_create
      | Action.edit => Perm.can_edit
      | Action.delete => Perm.can_delete)
  | ResourceType.library => none

/-- Modelled from the spec: the PermissionGate decision rule — an
unauthenticated principal is denied, a principal without a profile is
denied, and otherwise the request passes on an explicit grant match in
the principal's groups or on the Admin role shortcut.  The grant table
is the source `setup_groups.py` assignment. -/
def authorize (p : Principal) (a : Action) (rt : ResourceType) : Bool :=
  p.authenticated &&
    match p.profile with
    | none => false
    | some r =>
      r == Role.Admin ||
        (roleGroups r).any fun g =>
          (groupPerms g).any fun perm => some perm == grantFor a rt

/-! The dedicated search endpoint `secure_book_search` from
`bookshelf/views.py`. -/

/-- Per-session state: the `search_count` session key. -/
structure Session where
  search_count : Nat
deriving DecidableEq

/-- Responses of the dedicated search endpoint: the 429 rate-limit
error, the 200 JSON result (carrying the escaped query echoed back), or
the 400 invalid-query error. -/
inductive SearchResp
  | rateLimited
  | results (query : Str)
  | invalidQuery
deriving DecidableEq

/-- Whether a search response is an error envelope (status 4xx). -/
def SearchResp.isError : SearchResp → Bool
  | SearchResp.results _ => false
  | _ => true

/-- Field-level validation of the `query` field followed by
`clean_query`, as Django's form machinery runs them: the framework
strips the raw value, enforces `required` and `max_length=200`, then
calls the form's `clean_query`. -/
def bookSearchClean (q : Str) : Except Str Str :=
  if (pyStrip q).isEmpty then Except.error queryShortMsg
  else if 200 < (pyStrip q).length then Except.error queryLongMsg
  else clean_query (pyStrip q)

/-- Model of the `secure_book_search` view: rate-limit check on the
session counter, then form validation; only a validated search
increments `search_count` and returns results. -/
def secure_book_search (sess : Session) (q : Str) : SearchResp × Session :=
  if 50 < sess.search_count then (SearchResp.rateLimited, sess)
  else
    match bookSearchClean q with
    | Except.ok cq => (SearchResp.results (escapeHtml cq), ⟨sess.search_count + 1⟩)
    | Except.error _ => (SearchResp.invalidQuery, sess)

/-! Supporting lemmas for the claim theorems. -/

theorem spamIndicatorFacts : ∀ ind ∈ spamIndicators,
    ind ≠ [] ∧ ind.head?.all (fun a => !isPySpace a) = true ∧
      ind.getLast?.all (fun a => !isPySpace a) = true ∧
      ind.all (fun c => !isHtmlSpecial c) = true := by decide

/-! Claim theorems. -/

/-- C1: an authenticated principal whose profile role is Admin is
authorized for every Book action (view/create/edit/delete), while an
authenticated principal whose role is Member (Viewers group) is
authorized on Book exactly for the view action. -/
theorem authorize_role_table (p : Principal) (a : Action)
    (hp : p.authenticated = true) :
    (p.profile = some Role.Admin → authorize p a ResourceType.book = true) ∧
    (p.profile = some Role.Member →
      (authorize p a ResourceType.book = true ↔ a = Action.view)) := by
  obtain ⟨auth, prof⟩ := p
  subst hp
  constructor
  · intro h
    simp only at h
    subst h
    cases a <;> rfl
  · intro h
    simp only at h
    subst h
    cases a <;> simp [authorize, roleGroups, groupPerms, grantFor]

/-- C1 witness: a concrete Admin principal may delete a Book and a
concrete Member principal may view but not delete. -/
theorem authorize_role_table_witness :
    authorize ⟨true, some Role.Admin⟩ Action.delete ResourceType.book = true ∧
    authorize ⟨true, some Role.Member⟩ Action.view ResourceType.book = true ∧
    authorize ⟨true, some Role.Member⟩ Action.delete ResourceType.book = false := by
  refine ⟨(authorize_role_table ⟨true, some Role.Admin⟩ Action.delete rfl).1 rfl,
    ((authorize_role_table ⟨true, some Role.Member⟩ Action.view rfl).2 rfl).mpr rfl, ?_⟩
  have h := (authorize_role_table ⟨true, some Role.Member⟩ Action.delete rfl).2 rfl
  cases hb : authorize ⟨true, some Role.Member⟩ Action.delete ResourceType.book
  · rfl
  · exact absurd (h.mp hb) (by decide)

/-- C2: a principal without a profile resolves to the NoProfile error
(no crash) and is denied every action on every resource type. -/
theorem resolve_no_profile (p : Principal) (a : Action) (rt : ResourceType)
    (h : p.profile = none) :
    resolve p = Except.error ResolveError.NoProfile ∧ authorize p a rt = false := by
  constructor
  · simp [resolve, h]
  · simp [authorize, h]

/-- C2 witness: a concrete authenticated principal without a profile. -/
theorem resolve_no_profile_witness :
    resolve ⟨true, none⟩ = Except.error ResolveError.NoProfile ∧
    authorize ⟨true, none⟩ Action.view ResourceType.book = false :=
  resolve_no_profile ⟨true, none⟩ Action.view ResourceType.book rfl

/-- C3 counterexample: with the current year 2026, the year 2026 lies in
the closed range [1000, current_year] that the claim requires every year
field to accept (and the API serializer does accept it), yet the
`SecureBookForm` field bounds reject it: the form enforces the fixed
range [1000, 2025], not [1000, current_year]. -/
theorem publication_year_form_cex :
    ((1000 : Int) ≤ 2026 ∧ (2026 : Int) ≤ 2026) ∧
    (validate_publication_year 2026 2026).isOk = true ∧
    publication_year_field_ok 2026 = false := by decide

/-- C3 amended: the API serializer accepts a year exactly when it lies
in [1000, current_year]; the `SecureBookForm` year field accepts a year
exactly when it lies in the fixed range [1000, 2025]. -/
theorem publication_year_ranges (currentYear y : Int) :
    ((validate_publication_year currentYear y).isOk = true ↔
      1000 ≤ y ∧ y ≤ currentYear) ∧
    (publication_year_field_ok y = true ↔ 1000 ≤ y ∧ y ≤ 2025) := by
  constructor
  · unfold validate_publication_year
    split_ifs with h1 h2 <;> simp [Except.isOk, Except.toBool] <;> omega
  · unfold publication_year_field_ok
    simp only [Bool.and_eq_true, decide_eq_true_eq]

/-- C3 witness: year 2020 with current year 2026 is accepted by the
serializer. -/
theorem publication_year_ranges_witness :
    (validate_publication_year 2026 2020).isOk = true :=
  (publication_year_ranges 2026 2020).1.mpr (by decide)

/-- C4 counterexample: on the name "!" the code surfaces the
disallowed-character message where the spec's check order (length before
character class) would surface the minimum-length message, and the name
"Buy Now" passes the code's name validation although the spec's order
ends with a spam-substring check that rejects it. -/
theorem clean_name_order_cex :
    clean_name "!".toList = Except.error nameCharsMsg ∧
    validate_name_spec_order "!".toList = Except.error nameLenMsg ∧
    nameCharsMsg ≠ nameLenMsg ∧
    clean_name "Buy Now".toList = Except.ok "Buy Now".toList ∧
    validate_name_spec_order "Buy Now".toList = Except.error messageSpamMsg :=
  ⟨rfl, rfl, by decide, rfl, rfl⟩

/-- C4 amended: trimming and HTML-escaping run first; then each field
runs its own checks in the field's own order — for the name field the
disallowed-character check precedes the minimum-length check and no spam
check exists, for the message field the minimum-length check precedes
the spam check — and the message surfaced is that of the first failing
check in that order (first-match-wins, not accumulate-all). -/
theorem clean_order_first_match (name msgv : Str) (hn : name ≠ [])
    (hm : msgv ≠ []) :
    ((nameRegexOk (sanitizeInput name) = false →
        clean_name name = Except.error nameCharsMsg) ∧
      (nameRegexOk (sanitizeInput name) = true → (sanitizeInput name).length < 2 →
        clean_name name = Except.error nameLenMsg) ∧
      (nameRegexOk (sanitizeInput name) = true → 2 ≤ (sanitizeInput name).length →
        clean_name name = Except.ok (sanitizeInput name))) ∧
    (((sanitizeInput msgv).length < 10 →
        clean_message msgv = Except.error messageLenMsg) ∧
      (10 ≤ (sanitizeInput msgv).length → exampleSpam (sanitizeInput msgv) = true →
        clean_message msgv = Except.error messageSpamMsg) ∧
      (10 ≤ (sanitizeInput msgv).length → exampleSpam (sanitizeInput msgv) = false →
        clean_message msgv = Except.ok (sanitizeInput msgv))) := by
  have hne : ¬(name.isEmpty = true) := by simpa [List.isEmpty_iff] using hn
  have hme : ¬(msgv.isEmpty = true) := by simpa [List.isEmpty_iff] using hm
  unfold clean_name clean_message
  rw [if_neg hne, if_neg hme]
  refine ⟨⟨?_, ?_, ?_⟩, ?_, ?_, ?_⟩
  · intro h
    rw [if_pos (by simp [h])]
  · intro h h2
    rw [if_neg (by simp [h]), if_pos h2]
  · intro h h2
    rw [if_neg (by simp [h]), if_neg (by omega)]
  · intro h
    rw [if_pos h]
  · intro h h2
    rw [if_neg (by omega), if_pos h2]
  · intro h h2
    rw [if_neg (by omega), if_neg (by simp [h2])]

/-- C4 witness: a concrete valid name and a concrete message failing
only the length check. -/
theorem clean_order_first_match_witness :
    clean_name "Jo".toList = Except.ok "Jo".toList ∧
    clean_message "short".toList = Except.error messageLenMsg :=
  ⟨(clean_order_first_match "Jo".toList "short".toList (by decide)
      (by decide)).1.2.2 (by decide) (by decide),
    (clean_order_first_match "Jo".toList "short".toList (by decide)
      (by decide)).2.1 (by decide)⟩

/-- C5 counterexample: sanitization is not idempotent — re-sanitizing
the sanitized form of "&" re-escapes the ampersand of the entity. -/
theorem sanitize_not_idempotent_cex :
    sanitizeInput (sanitizeInput "&".toList) ≠ sanitizeInput "&".toList := by
  decide

/-- C5 amended: the sanitization step (trim then HTML-escape) is
idempotent on every input whose trimmed value contains no HTML-special
character; on inputs containing one, re-sanitizing re-escapes the
ampersands of the produced entities. -/
theorem sanitize_idempotent_on_plain (v : Str)
    (h : (pyStrip v).all (fun c => !isHtmlSpecial c) = true) :
    sanitizeInput (sanitizeInput v) = sanitizeInput v := by
  unfold sanitizeInput
  rw [escapeNoSpecial h, pyStrip_idem, escapeNoSpecial h]

/-- C5 witness: a plain input with surrounding whitespace. -/
theorem sanitize_idempotent_on_plain_witness :
    sanitizeInput (sanitizeInput " abc ".toList) = sanitizeInput " abc ".toList :=
  sanitize_idempotent_on_plain " abc ".toList (by decide)

/-- C6: the serializer's object-level validation rejects every title
that is empty or consists only of whitespace. -/
theorem title_whitespace_rejected (title : Str)
    (h : ∀ c ∈ title, isPySpace c = true) :
    (book_serializer_validate title).isOk = false := by
  unfold book_serializer_validate
  rw [if_pos (by simp [pyStrip_all_space h, List.isEmpty_iff])]
  rfl

/-- C6 witness: a whitespace-only title. -/
theorem title_whitespace_rejected_witness :
    (book_serializer_validate "  ".toList).isOk = false :=
  title_whitespace_rejected "  ".toList (by decide)

/-- C8: creating a Book titled "Django Basics" (year 2020) in an empty
store succeeds and yields exactly one record; the identical second
create is rejected by the uniqueness constraint, leaving the single
record in place. -/
theorem create_duplicate_scenario :
    createBook 2026 [] "Django Basics".toList 1 2020 =
      Except.ok [⟨"Django Basics".toList, 1, 2020⟩] ∧
    [(⟨"Django Basics".toList, 1, 2020⟩ : BookRec)].length = 1 ∧
    createBook 2026 [⟨"Django Basics".toList, 1, 2020⟩]
      "Django Basics".toList 1 2020 = Except.error uniqueMsg :=
  ⟨rfl, rfl, rfl⟩

/-- C9: a contact-form submission whose honeypot (`website`) field is
non-empty is rejected with the spam flag, regardless of the framework
field validation outcome and of all other field values. -/
theorem honeypot_rejects (fieldOk : Bool) (d : ContactSubmission)
    (h : d.website ≠ []) :
    clean_website d.website = Except.error spamDetectedMsg ∧
    contact_is_valid fieldOk d = false := by
  have hw : clean_website d.website = Except.error spamDetectedMsg := by
    unfold clean_website
    rw [if_neg (by simpa [List.isEmpty_iff] using h)]
  refine ⟨hw, ?_⟩
  unfold contact_is_valid
  rw [hw]
  simp [Except.isOk, Except.toBool]

/-- C9 witness: a concrete submission with a filled honeypot and all
other fields empty. -/
theorem honeypot_rejects_witness :
    contact_is_valid true ⟨[], [], [], [], [], "x".toList⟩ = false :=
  (honeypot_rejects true ⟨[], [], [], [], [], "x".toList⟩ (by decide)).2

/-- C10: when the query fails form validation the search endpoint
returns an error response and leaves the session's `search_count`
unchanged; the counter grows by exactly one precisely when the query
validates and the search is performed (a non-error response). -/
theorem search_counter_frame (sess : Session) (q : Str) :
    ((bookSearchClean q).isOk = false →
      (secure_book_search sess q).1.isError = true ∧
        (secure_book_search sess q).2 = sess) ∧
    ((secure_book_search sess q).2.search_count = sess.search_count + 1 ↔
      ((bookSearchClean q).isOk = true ∧
        (secure_book_search sess q).1.isError = false)) := by
  unfold secure_book_search
  by_cases hr : 50 < sess.search_count
  · rw [if_pos hr]
    refine ⟨fun _ => ⟨rfl, rfl⟩, ?_⟩
    constructor
    · intro h
      exact absurd (show sess.search_count = sess.search_count + 1 from h) (by omega)
    · rintro ⟨-, h2⟩
      exact absurd (show SearchResp.isError SearchResp.rateLimited = false from h2)
        (by decide)
  · rw [if_neg hr]
    cases hq : bookSearchClean q with
    | ok cq =>
      refine ⟨fun h => ?_, ?_⟩
      · simp [Except.isOk, Except.toBool] at h
      · simp [Except.isOk, Except.toBool, SearchResp.isError]
    | error e =>
      refine ⟨fun _ => ⟨rfl, rfl⟩, ?_⟩
      constructor
      · intro h
        exact absurd (show sess.search_count = sess.search_count + 1 from h) (by omega)
      · rintro ⟨h1, -⟩
        simp [Except.isOk, Except.toBool] at h1

/-- C10 witness: a valid concrete query increments the counter by one,
an invalid one leaves it unchanged. -/
theorem search_counter_frame_witness :
    (secure_book_search ⟨0⟩ "ab".toList).2.search_count = 0 + 1 ∧
    (secure_book_search ⟨0⟩ "!!".toList).2 = (⟨0⟩ : Session) :=
  ⟨(search_counter_frame ⟨0⟩ "ab".toList).2.mpr ⟨rfl, rfl⟩,
    ((search_counter_frame ⟨0⟩ "!!".toList).1 rfl).2⟩

/-- C7: every comment whose body contains one of the spam indicator
substrings ("http://", "https://", "www.", "click here", "buy now"),
compared case-insensitively, is rejected by the comment validator. -/
theorem comment_spam_rejected (comment : Str)
    (h : spamIndicators.any (fun ind => containsSub ind (lowerStr comment)) = true) :
    (clean_comment comment).isOk = false := by
  rw [List.any_eq_true] at h
  obtain ⟨ind, hmem, hsub⟩ := h
  rw [containsSub_iff] at hsub
  have hsub' : ind <:+: comment.map Char.toLower := hsub
  obtain ⟨p, hpinf, hpmap⟩ := mapInfixInv hsub'
  obtain ⟨hind_ne, hind_head, hind_last, hind_spec⟩ := spamIndicatorFacts ind hmem
  have hp_ne : p ≠ [] := by
    intro h0
    subst h0
    exact hind_ne hpmap.symm
  have hp_head : ∀ a, p.head? = some a → isPySpace a = false := by
    intro a ha
    have hih : ind.head? = some a.toLower := by
      rw [← hpmap, List.head?_map, ha]
      rfl
    rw [hih] at hind_head
    simp [Option.all] at hind_head
    cases hb : isPySpace a
    · rfl
    · rw [wsToLower hb, hb] at hind_head
      exact absurd hind_head (by decide)
  have hp_last : ∀ a, p.getLast? = some a → isPySpace a = false := by
    intro a ha
    have hih : ind.getLast? = some a.toLower := by
      rw [← hpmap, List.getLast?_map, ha]
      rfl
    rw [hih] at hind_last
    simp [Option.all] at hind_last
    cases hb : isPySpace a
    · rfl
    · rw [wsToLower hb, hb] at hind_last
      exact absurd hind_last (by decide)
  have hp_spec : p.all (fun c => !isHtmlSpecial c) = true := by
    rw [List.all_eq_true]
    intro c hc
    show (!isHtmlSpecial c) = true
    cases hb : isHtmlSpecial c
    · rfl
    · have hcin : c.toLower ∈ ind := by
        rw [← hpmap]
        exact List.mem_map.mpr ⟨c, hc, rfl⟩
      rw [specialToLower hb] at hcin
      rw [List.all_eq_true] at hind_spec
      have h3 : (!isHtmlSpecial c) = true := hind_spec c hcin
      rw [hb] at h3
      exact absurd h3 (by decide)
  have hstrip : p <:+: pyStrip comment := infixPyStrip hp_ne hp_head hp_last hpinf
  have hesc : p <:+: escapeHtml (pyStrip comment) := infixEscape hp_spec hstrip
  have hlow : ind <:+: lowerStr (sanitizeInput comment) := by
    have h4 := infixMap Char.toLower hesc
    rw [hpmap] at h4
    exact h4
  have hany : spamIndicators.any
      (fun ind => containsSub ind (lowerStr (sanitizeInput comment))) = true :=
    List.any_eq_true.mpr ⟨ind, hmem, (containsSub_iff ind _).mpr hlow⟩
  have hcne : ¬(comment.isEmpty = true) := by
    obtain ⟨s, t, hst⟩ := hpinf
    rw [List.isEmpty_iff]
    intro h0
    rw [h0] at hst
    simp only [List.append_eq_nil] at hst
    exact hp_ne hst.1.2
  unfold clean_comment
  rw [if_neg hcne]
  by_cases hlen : (sanitizeInput comment).length < 5
  · rw [if_pos hlen]
    rfl
  · rw [if_neg hlen, if_pos hany]
    rfl

/-- C7 witness: a concrete comment containing "Buy Now" is rejected. -/
theorem comment_spam_rejected_witness :
    (clean_comment "Buy Now cheap".toList).isOk = false :=
  comment_spam_rejected "Buy Now cheap".toList (by decide)

end Bookshelf
